import Mathlib

/-!
Verification of the KoboTouchExtended device driver (`device/driver.py`).

The development shallowly embeds the driver's core routines:

* `migrate_old_settings` — migration of the legacy positional settings
  array (`device/driver.py`, lines 492-583);
* `filename_callback` — on-device filename resolution
  (`device/driver.py`, lines 394-404);
* `_modify_epub` — the per-book transformation pipeline
  (`device/driver.py`, lines 181-319);
* the ImageId reconciliation loops inside `sync_booklists`
  (`device/driver.py`, lines 410-471).

Python values stored in the untyped legacy settings array are modelled by
`PyVal`; strings are modelled as `List Char`; set-valued state
(`skip_renaming_files`) as a duplicate-free `List Nat` of book uuids.
Runtime semantics follow Python 3 (the primary supported runtime: the
driver imports `configparser` first and falls back to the Python 2
`ConfigParser` only on `ImportError`); in particular, attribute access
`e.message` on an exception object that has no `message` attribute raises
`AttributeError`.
-/

/-- A dynamically-typed Python value as stored in the legacy
`extra_customization` array. `isStr` mirrors `isinstance(v, str)`. -/
inductive PyVal where
  | bool (b : Bool)
  | str (s : List Char)
  | int (n : Int)
  | none
  deriving DecidableEq, Repr

/-- `isinstance(v, str)` on a `PyVal`. -/
def PyVal.isStr : PyVal → Bool
  | .str _ => true
  | _ => false

/-- The structured settings object after the parent-class migration has
run (`super().migrate_old_settings(settings)` is host-application code
outside this repository; the plugin-specific migration receives its
result, which we take as the input). The nine option fields plus the
remaining `extra_customization` array. -/
structure DriverSettings where
  extra_features : PyVal
  upload_encumbered : PyVal
  skip_failed : PyVal
  hyphenate : PyVal
  smarten_punctuation : PyVal
  clean_markup : PyVal
  full_page_numbers : PyVal
  file_copy_dir : PyVal
  disable_hyphenation : PyVal
  extra_customization : List PyVal
  deriving DecidableEq, Repr

/-- `settings.extra_customization[i]` guarded by `try/except IndexError:
pass`: a missing index leaves the field at its prior value `old`. -/
def tryIndex (arr : List PyVal) (i : Nat) (old : PyVal) : PyVal :=
  match arr[i]? with
  | some v => v
  | Option.none => old

/-- `migrate_old_settings` (`device/driver.py`, lines 492-583), the
plugin-specific part after the parent-class call. The option indices are
built by the `count_options` counter: nine assignments but only eight
increments, so `count_options = 8` at the end; the guard is
`len(extra_customization) >= 8` and the trim drops
`count_options + 1 = 9` leading entries. `file_copy_dir` is reset to
`None` when the migrated value is not a string (the `isinstance` check,
lines 558-559). -/
def migrate_old_settings (settings : DriverSettings) : DriverSettings :=
  let arr := settings.extra_customization
  if arr.length ≥ 8 then
    { settings with
      extra_features := tryIndex arr 0 settings.extra_features
      upload_encumbered := tryIndex arr 1 settings.upload_encumbered
      skip_failed := tryIndex arr 2 settings.skip_failed
      hyphenate := tryIndex arr 3 settings.hyphenate
      smarten_punctuation := tryIndex arr 4 settings.smarten_punctuation
      clean_markup := tryIndex arr 5 settings.clean_markup
      file_copy_dir :=
        match arr[7]? with
        | some v => if v.isStr then v else PyVal.none
        | Option.none => settings.file_copy_dir
      full_page_numbers := tryIndex arr 6 settings.full_page_numbers
      disable_hyphenation := tryIndex arr 8 settings.disable_hyphenation
      extra_customization := arr.drop 9 }
  else
    settings

/-- `EPUB_EXT = ".epub"` (`device/driver.py`, line 42). -/
def EPUB_EXT : List Char := ".epub".toList

/-- `KEPUB_EXT = ".kepub"` (`device/driver.py`, line 43). -/
def KEPUB_EXT : List Char := ".kepub".toList

/-- Python `path.endswith(ext)`. -/
def endswith (path ext : List Char) : Bool := ext.isSuffixOf path

/-- `filename_callback` (`device/driver.py`, lines 394-404). Arguments:
the `extra_features` preference, the current `skip_renaming_files` set
(book uuids), the candidate `path`, and the book's `mi.uuid`. -/
def filename_callback (extra_features : Bool) (skip_renaming_files : List Nat)
    (path : List Char) (uuid : Nat) : List Char :=
  if extra_features then
    if endswith path KEPUB_EXT then
      path ++ EPUB_EXT
    else if endswith path EPUB_EXT ∧ uuid ∉ skip_renaming_files then
      path.take (path.length - EPUB_EXT.length) ++ KEPUB_EXT ++ EPUB_EXT
    else
      path
  else
    path

/-- A book entry of a booklist as consulted by `sync_booklists`
(`device/driver.py`, lines 451-456): its `application_id` (possibly
`None`) and its device `contentID`. -/
structure KoboBook (α : Type) where
  application_id : Option Nat
  contentID : α
  deriving DecidableEq, Repr

/-- The queue-building loop of `sync_booklists` (`device/driver.py`,
lines 450-457): walk every book of every booklist and append the pair
`(imageid_from_contentid(b.contentID), b.contentID)` whenever
`b.application_id is not None and b.contentID in all_nulls`.
`imageid_from_contentid` is a parent-class method (host-application code),
modelled as the function parameter `f`; `all_nulls` is the key set of the
dict built from the database query. -/
def sync_collect_nulls {α β : Type} [DecidableEq α] (f : α → β)
    (all_nulls : List α) (booklists : List (List (KoboBook α))) :
    List (β × α) :=
  booklists.foldl
    (fun nulls booklist =>
      booklist.foldl
        (fun nulls b =>
          if b.application_id ≠ Option.none ∧ b.contentID ∈ all_nulls then
            nulls ++ [(f b.contentID, b.contentID)]
          else
            nulls)
        nulls)
    []

/-- The batched-update loop of `sync_booklists` (`device/driver.py`,
lines 460-466): `while nulls[:100]: executemany(update_query, nulls[:100]);
del nulls[:100]`. Returns the successive batches handed to `executemany`,
in order; each batch is deleted from the queue before the next iteration.
The loop guard is the truthiness of the slice `nulls[:100]`, i.e. its
non-emptiness. -/
def sync_update_batches {α : Type} (nulls : List α) : List (List α) :=
  if h : (nulls.take 100).isEmpty then
    []
  else
    nulls.take 100 :: sync_update_batches (nulls.drop 100)
termination_by nulls.length
decreasing_by
  simp only [List.length_drop]
  have hne : nulls ≠ [] := by
    intro hnil
    simp [hnil] at h
  have : 0 < nulls.length := List.length_pos.mpr hne
  omega

/-- The container abstraction as seen by `_modify_epub`: only the
`is_drm_encumbered` property is consulted (`device/driver.py`, line 217). -/
structure Container where
  is_drm_encumbered : Bool
  deriving DecidableEq, Repr

/-- The kind of a raised Python exception. -/
inductive ExcKind where
  | drmError
  | keyError
  | attrError
  | otherError
  deriving DecidableEq, Repr

/-- A raised Python exception. `hasMessage` records whether the exception
object carries a `message` attribute: under Python 3 built-in exceptions
(`KeyError`, `AttributeError`, `DRMError`, ...) do not, while the
plugin's own `InvalidEPub` sets `self.message` explicitly
(`device/driver.py`, line 53). Accessing `e.message` when `hasMessage`
is false raises `AttributeError`. -/
structure Exc where
  kind : ExcKind
  hasMessage : Bool
  deriving DecidableEq, Repr

/-- The driver preferences read by `_modify_epub` via `get_pref`
(`device/driver.py`, lines 585-628). `file_copy_dir` is the string
preference after the `or ""` defaulting on line 304. -/
structure Prefs where
  extra_features : Bool
  upload_encumbered : Bool
  skip_failed : Bool
  file_copy_dir : List Char
  deriving DecidableEq, Repr

/-- The external world consulted by one `_modify_epub` call: outcomes of
the host-application and container collaborators, none of which are code
of this repository. -/
structure Env where
  /-- Outcome of `KEPubContainer(infile, log)` (line 215): the container,
  or a raised exception (a `DRMError` is caught on line 218). -/
  construct : Except Exc Container
  /-- The key set of the parsed `driveinfo.calibre` JSON object when that
  file exists, `Option.none` when it does not (lines 244-258). -/
  driveinfo_keys : Option (List (List Char))
  /-- Outcome of `container.copy_file_to_container` (line 270):
  `Option.none` on success, a raised exception otherwise. -/
  copy_file_exc : Option Exc
  /-- Outcome of the external transformer `modify_epub(container, ...)`
  (line 274): `Option.none` on success, a raised exception otherwise. -/
  modify_epub_exc : Option Exc
  /-- Return value of `super()._modify_epub(infile, metadata, container)`
  (parent-class passthrough, host-application code). -/
  super_result : Bool
  /-- Outcome of `container.commit(outpath=infile)` (line 318):
  `Option.none` on success, a raised exception otherwise. -/
  commit_exc : Option Exc
  deriving Repr

/-- Observable outcome of one `_modify_epub` call: the returned value or
the propagated exception, the final `skip_renaming_files` set, and which
collaborators were invoked. -/
structure ModifyOut where
  result : Except Exc Bool
  skip_renaming_files : List Nat
  super_called : Bool
  modify_epub_called : Bool
  commit_called : Bool
  commit_path : Option (List Char)
  deriving Repr

/-- Python `set.add`: idempotent insertion into `skip_renaming_files`. -/
def setAdd (s : List Nat) (x : Nat) : List Nat :=
  if x ∈ s then s else x :: s

/-- `del o[prop]` on a JSON object modelled by its key set: removes the
key, or raises `KeyError` (without a `message` attribute under Python 3)
when the key is absent. -/
def delProp (keys : List (List Char)) (prop : List Char) :
    Except Exc (List (List Char)) :=
  if prop ∈ keys then Except.ok (keys.erase prop)
  else Except.error { kind := ExcKind.keyError, hasMessage := false }

/-- The JSON key `"device_store_uuid"`. -/
def key_device_store_uuid : List Char := "device_store_uuid".toList

/-- The JSON key `"prefix"`. -/
def key_path_pfx : List Char := "prefix".toList

/-- The JSON key `"last_library_uuid"`. -/
def key_last_library_uuid : List Char := "last_library_uuid".toList

/-- The JSON key `"location_code"`. -/
def key_location_code : List Char := "location_code".toList

/-- The four unconditional deletions of transient keys from an existing
`driveinfo.calibre` record (`device/driver.py`, lines 247-253). -/
def delProps (keys : List (List Char)) : Except Exc (List (List Char)) := do
  let keys ← delProp keys key_device_store_uuid
  let keys ← delProp keys key_path_pfx
  let keys ← delProp keys key_last_library_uuid
  let keys ← delProp keys key_location_code
  Except.ok keys

/-- The body of the `try` block of `_modify_epub` (lines 234-285): read
and prune the driver-info record, embed it in the container, then run the
external transformer. Returns the first raised exception (if any) and
whether `modify_epub` was reached. -/
def modifyTryBody (env : Env) : Option Exc × Bool :=
  let infoExc : Option Exc :=
    match env.driveinfo_keys with
    | some keys =>
      match delProps keys with
      | Except.ok _ => Option.none
      | Except.error e => some e
    | Option.none => Option.none
  match infoExc with
  | some e => (some e, false)
  | Option.none =>
    match env.copy_file_exc with
    | some e => (some e, false)
    | Option.none =>
      match env.modify_epub_exc with
      | some e => (some e, true)
      | Option.none => (Option.none, true)

/-- `_modify_epub` (`device/driver.py`, lines 181-319). Arguments mirror
the Python signature: the source path `infile`, the book's
`metadata.uuid`, and the optional `container` argument; `prefs` packages
the `get_pref` reads, `env` the collaborator outcomes, and
`skip_renaming_files` the class-level set on entry. -/
def _modify_epub (prefs : Prefs) (env : Env) (infile : List Char)
    (uuid : Nat) (container : Option Container)
    (skip_renaming_files : List Nat) : ModifyOut :=
  if !(endswith infile EPUB_EXT) then
    -- lines 182-193: foreign-format passthrough
    let skip' :=
      if !(endswith infile KEPUB_EXT) then setAdd skip_renaming_files uuid
      else skip_renaming_files
    { result := Except.ok env.super_result, skip_renaming_files := skip',
      super_called := true, modify_epub_called := false,
      commit_called := false, commit_path := Option.none }
  else
    -- lines 212-223: DRM probe
    let probe : Except Exc Bool :=
      match container with
      | some c => Except.ok c.is_drm_encumbered
      | Option.none =>
        match env.construct with
        | Except.ok _ => Except.ok false
        | Except.error e =>
          if e.kind = ExcKind.drmError then Except.ok true
          else Except.error e
    match probe with
    | Except.error e =>
      -- a non-DRM construction failure propagates (only DRMError is caught)
      { result := Except.error e, skip_renaming_files := skip_renaming_files,
        super_called := false, modify_epub_called := false,
        commit_called := false, commit_path := Option.none }
    | Except.ok is_encumbered_book =>
      if is_encumbered_book then
        -- lines 225-232
        let skip' := setAdd skip_renaming_files uuid
        if prefs.upload_encumbered then
          { result := Except.ok env.super_result, skip_renaming_files := skip',
            super_called := true, modify_epub_called := false,
            commit_called := false, commit_path := Option.none }
        else
          { result := Except.ok false, skip_renaming_files := skip',
            super_called := false, modify_epub_called := false,
            commit_called := false, commit_path := Option.none }
      else
        match modifyTryBody env with
        | (some e, mcalled) =>
          -- lines 286-299: except handler; the log call's format argument
          -- evaluates `e.message` first
          if !e.hasMessage then
            { result :=
                Except.error { kind := ExcKind.attrError, hasMessage := false },
              skip_renaming_files := skip_renaming_files,
              super_called := false, modify_epub_called := mcalled,
              commit_called := false, commit_path := Option.none }
          else if !prefs.skip_failed then
            { result := Except.error e,
              skip_renaming_files := skip_renaming_files,
              super_called := false, modify_epub_called := mcalled,
              commit_called := false, commit_path := Option.none }
          else
            { result := Except.ok env.super_result,
              skip_renaming_files := setAdd skip_renaming_files uuid,
              super_called := true, modify_epub_called := mcalled,
              commit_called := false, commit_path := Option.none }
        | (Option.none, _) =>
          -- lines 301-319: success path
          let skip' :=
            if !prefs.extra_features then setAdd skip_renaming_files uuid
            else skip_renaming_files
          let retval := env.super_result
          if retval then
            match env.commit_exc with
            | some e =>
              { result := Except.error e, skip_renaming_files := skip',
                super_called := true, modify_epub_called := true,
                commit_called := true, commit_path := some infile }
            | Option.none =>
              { result := Except.ok retval, skip_renaming_files := skip',
                super_called := true, modify_epub_called := true,
                commit_called := true, commit_path := some infile }
          else
            { result := Except.ok retval, skip_renaming_files := skip',
              super_called := true, modify_epub_called := true,
              commit_called := false, commit_path := Option.none }

/-! ## Helper definitions and lemmas for the theorems -/

/-- A settings record whose nine option fields are all `None` and whose
legacy array is `arr`; used to instantiate concrete migration scenarios. -/
def settingsWithArr (arr : List PyVal) : DriverSettings :=
  { extra_features := PyVal.none, upload_encumbered := PyVal.none,
    skip_failed := PyVal.none, hyphenate := PyVal.none,
    smarten_punctuation := PyVal.none, clean_markup := PyVal.none,
    full_page_numbers := PyVal.none, file_copy_dir := PyVal.none,
    disable_hyphenation := PyVal.none, extra_customization := arr }

/-- A concrete settings record with a length-8 legacy array. -/
def settings8 : DriverSettings := settingsWithArr (List.replicate 8 (PyVal.bool true))

/-- A concrete settings record with a length-10 legacy array. -/
def settings10 : DriverSettings := settingsWithArr (List.replicate 10 (PyVal.bool true))

theorem tryIndex_eq_getD (arr : List PyVal) (i : Nat) (old : PyVal)
    (h : i < arr.length) : tryIndex arr i old = arr.getD i PyVal.none := by
  unfold tryIndex
  rw [List.getElem?_eq_getElem h]
  simp [List.getD_eq_getElem?_getD, List.getElem?_eq_getElem h]

/-! ## Claims C1 and C2: legacy settings migration -/

/-- Claim C1, counterexample: a legacy array of length 8 is shorter than
9 elements, yet `migrate_old_settings` does not return the settings
unchanged — the guard `len(extra_customization) >= count_options`
compares against 8 (`count_options` receives nine index assignments but
only eight increments), so the length-8 array is migrated: fields are
assigned and the array is trimmed to empty. -/
theorem C1_counterexample :
    settings8.extra_customization.length < 9
      ∧ migrate_old_settings settings8 ≠ settings8 := by
  decide

/-- Claim C1 (amended): for every legacy settings array shorter than 8
elements, `migrate_old_settings` returns the structured settings
unchanged (no field assignments, no trimming) and does not throw. -/
theorem C1_short_array_unchanged (s : DriverSettings)
    (h : s.extra_customization.length < 8) :
    migrate_old_settings s = s := by
  unfold migrate_old_settings
  rw [if_neg (by omega)]

/-- Witness for `C1_short_array_unchanged` at an empty legacy array. -/
theorem C1_witness :
    migrate_old_settings (settingsWithArr []) = settingsWithArr [] :=
  C1_short_array_unchanged (settingsWithArr []) (by decide)

/-- Claim C2, counterexample: on a legacy array of length 10 the
returned trailing array has 1 element, not `10 - 10 = 0` — the code
drops `count_options + 1 = 9` leading entries, not 10. -/
theorem C2_counterexample :
    settings10.extra_customization.length = 10
      ∧ (migrate_old_settings settings10).extra_customization.length ≠ 10 - 10 := by
  decide

/-- Claim C2 (amended): for every legacy settings array of length
`n ≥ 9`, `migrate_old_settings` populates each of the 9 known fields
from its fixed index (`file_copy_dir` additionally reset to `None` when
the read value is not a string), and the returned trailing array is the
input with its first 9 entries dropped — exactly `n - 9` elements
(empty if `n = 9`), never negative. -/
theorem C2_long_array_migrated (s : DriverSettings)
    (h : 9 ≤ s.extra_customization.length) :
    (migrate_old_settings s).extra_features
        = s.extra_customization.getD 0 PyVal.none
      ∧ (migrate_old_settings s).upload_encumbered
        = s.extra_customization.getD 1 PyVal.none
      ∧ (migrate_old_settings s).skip_failed
        = s.extra_customization.getD 2 PyVal.none
      ∧ (migrate_old_settings s).hyphenate
        = s.extra_customization.getD 3 PyVal.none
      ∧ (migrate_old_settings s).smarten_punctuation
        = s.extra_customization.getD 4 PyVal.none
      ∧ (migrate_old_settings s).clean_markup
        = s.extra_customization.getD 5 PyVal.none
      ∧ (migrate_old_settings s).full_page_numbers
        = s.extra_customization.getD 6 PyVal.none
      ∧ (migrate_old_settings s).file_copy_dir
        = (if (s.extra_customization.getD 7 PyVal.none).isStr then
            s.extra_customization.getD 7 PyVal.none
          else PyVal.none)
      ∧ (migrate_old_settings s).disable_hyphenation
        = s.extra_customization.getD 8 PyVal.none
      ∧ (migrate_old_settings s).extra_customization
        = s.extra_customization.drop 9
      ∧ (migrate_old_settings s).extra_customization.length
        = s.extra_customization.length - 9 := by
  unfold migrate_old_settings
  rw [if_pos (by omega)]
  have h7 : (7 : Nat) < s.extra_customization.length := by omega
  refine ⟨?_, ?_, ?_, ?_, ?_, ?_, ?_, ?_, ?_, ?_, ?_⟩ <;>
    simp [tryIndex_eq_getD _ _ _ (by omega : (0:Nat) < s.extra_customization.length),
      tryIndex_eq_getD _ _ _ (by omega : (1:Nat) < s.extra_customization.length),
      tryIndex_eq_getD _ _ _ (by omega : (2:Nat) < s.extra_customization.length),
      tryIndex_eq_getD _ _ _ (by omega : (3:Nat) < s.extra_customization.length),
      tryIndex_eq_getD _ _ _ (by omega : (4:Nat) < s.extra_customization.length),
      tryIndex_eq_getD _ _ _ (by omega : (5:Nat) < s.extra_customization.length),
      tryIndex_eq_getD _ _ _ (by omega : (6:Nat) < s.extra_customization.length),
      tryIndex_eq_getD _ _ _ (by omega : (8:Nat) < s.extra_customization.length),
      List.getElem?_eq_getElem h7, List.getD_eq_getElem?_getD]

/-- Witness for `C2_long_array_migrated` at a concrete length-10 array:
the trailing array equals the input with 9 entries dropped, and
`extra_features` is read from index 0. -/
theorem C2_witness :
    (migrate_old_settings settings10).extra_customization
        = settings10.extra_customization.drop 9
      ∧ (migrate_old_settings settings10).extra_features
        = settings10.extra_customization.getD 0 PyVal.none :=
  ⟨(C2_long_array_migrated settings10 (by decide)).2.2.2.2.2.2.2.2.2.1,
   (C2_long_array_migrated settings10 (by decide)).1⟩

/-! ## Claims C3 and C9: filename resolution -/

/-- The double extension `".kepub.epub"` carried by already-resolved
on-device filenames. -/
def kepub_epub_ext : List Char := ".kepub.epub".toList

/-- The concrete path `"book.kepub.epub"`. -/
def pathBookKepubEpub : List Char := "book.kepub.epub".toList

/-- The concrete path `"book.epub"`. -/
def pathBookEpub : List Char := "book.epub".toList

theorem not_endswith_incompat (path x y : List Char)
    (hx : endswith path x = true) (h1 : x.isSuffixOf y = false)
    (h2 : y.isSuffixOf x = false) : endswith path y = false := by
  by_contra h
  rw [Bool.not_eq_false] at h
  have hx' : x <:+ path := by simpa [endswith] using hx
  have hy' : y <:+ path := by simpa [endswith] using h
  rcases List.suffix_or_suffix_of_suffix hx' hy' with hs | hs
  · exact absurd (List.isSuffixOf_iff_suffix.mpr hs) (by simp [h1])
  · exact absurd (List.isSuffixOf_iff_suffix.mpr hs) (by simp [h2])

/-- Claim C3, counterexample: `"book.kepub.epub"` already ends in the
device-native-plus-packaged double extension, yet with extraFeatures=true
and a book id (1) not in the skip-renaming set, `filename_callback` does
not return it unchanged — the path ends in `".epub"` (not `".kepub"`),
so the renaming branch fires again and yields
`"book.kepub.kepub.epub"`. -/
theorem C3_counterexample :
    endswith pathBookKepubEpub kepub_epub_ext = true
      ∧ filename_callback true [] pathBookKepubEpub 1 ≠ pathBookKepubEpub := by
  decide

/-- Claim C3 (amended): for every path already ending in the double
extension `".kepub.epub"` and every book id that is in the skip-renaming
set, `filename_callback` with extraFeatures=true returns the path
unchanged. -/
theorem C3_resolved_unchanged_for_skipped (path : List Char) (uuid : Nat)
    (skip : List Nat) (hpath : endswith path kepub_epub_ext = true)
    (hskip : uuid ∈ skip) :
    filename_callback true skip path uuid = path := by
  have hk : endswith path KEPUB_EXT = false :=
    not_endswith_incompat path kepub_epub_ext KEPUB_EXT hpath
      (by decide) (by decide)
  simp [filename_callback, hk, hskip]

/-- Witness for `C3_resolved_unchanged_for_skipped` at
`"book.kepub.epub"` with book id 1 present in the skip set. -/
theorem C3_witness :
    filename_callback true [1] pathBookKepubEpub 1 = pathBookKepubEpub :=
  C3_resolved_unchanged_for_skipped pathBookKepubEpub 1 [1]
    (by decide) (by decide)

/-- Claim C9: for every book id not in the skip-renaming set, with
extraFeatures=true, `filename_callback` on a path ending in `".epub"`
splices the device-native marker `".kepub"` in before the extension;
with extraFeatures=false every path is returned unchanged. -/
theorem C9_epub_renamed (path path2 : List Char) (uuid uuid2 : Nat)
    (skip skip2 : List Nat) (hpath : endswith path EPUB_EXT = true)
    (hskip : uuid ∉ skip) :
    filename_callback true skip path uuid
        = path.take (path.length - EPUB_EXT.length) ++ KEPUB_EXT ++ EPUB_EXT
      ∧ filename_callback false skip2 path2 uuid2 = path2 := by
  have hk : endswith path KEPUB_EXT = false :=
    not_endswith_incompat path EPUB_EXT KEPUB_EXT hpath (by decide) (by decide)
  constructor
  · simp [filename_callback, hk, hpath, hskip]
  · simp [filename_callback]

/-- Witness for `C9_epub_renamed`: `"book.epub"` with a fresh book id
becomes `"book.kepub.epub"`; with extraFeatures=false it stays
`"book.epub"`. -/
theorem C9_witness :
    filename_callback true [] pathBookEpub 1 = pathBookKepubEpub
      ∧ filename_callback false [] pathBookEpub 1 = pathBookEpub :=
  ⟨((C9_epub_renamed pathBookEpub pathBookEpub 1 1 [] []
      (by decide) (by decide)).1).trans (by decide),
   (C9_epub_renamed pathBookEpub pathBookEpub 1 1 [] []
      (by decide) (by decide)).2⟩

/-! ## Claims C4, C6, C7, C10: the per-book transformation pipeline -/

theorem mem_setAdd (s : List Nat) (x : Nat) : x ∈ setAdd s x := by
  unfold setAdd
  split
  · assumption
  · exact List.mem_cons_self x s

/-- Claim C4: when the transform path succeeds — the source is an
`".epub"`, the container is not DRM-encumbered, the try block (metadata
injection and external transformer) raises nothing, the parent
passthrough returns true, and the commit raises nothing — `_modify_epub`
returns the conjunction of the commit's success and all prior steps'
success, and the container commit is invoked to write back to the
original file path. -/
theorem C4_commit_conjunction (prefs : Prefs) (env : Env) (infile : List Char)
    (uuid : Nat) (c : Container) (skip : List Nat)
    (hext : endswith infile EPUB_EXT = true)
    (hdrm : c.is_drm_encumbered = false)
    (htry : (modifyTryBody env).fst = Option.none)
    (hsuper : env.super_result = true)
    (hcommit : env.commit_exc = Option.none) :
    (_modify_epub prefs env infile uuid (some c) skip).result
        = Except.ok (env.super_result && true)
      ∧ (_modify_epub prefs env infile uuid (some c) skip).commit_called = true
      ∧ (_modify_epub prefs env infile uuid (some c) skip).commit_path
        = some infile := by
  rcases h : modifyTryBody env with ⟨exc, m⟩
  rw [h] at htry
  simp only at htry
  subst htry
  simp [_modify_epub, hext, hdrm, h, hsuper, hcommit]

/-- Witness for `C4_commit_conjunction` at a concrete fully-successful
environment. -/
theorem C4_witness :
    (_modify_epub
        { extra_features := true, upload_encumbered := false,
          skip_failed := false, file_copy_dir := [] }
        { construct := Except.ok { is_drm_encumbered := false },
          driveinfo_keys := Option.none, copy_file_exc := Option.none,
          modify_epub_exc := Option.none, super_result := true,
          commit_exc := Option.none }
        pathBookEpub 1 (some { is_drm_encumbered := false }) []).result
      = Except.ok (true && true) :=
  (C4_commit_conjunction
    { extra_features := true, upload_encumbered := false,
      skip_failed := false, file_copy_dir := [] }
    { construct := Except.ok { is_drm_encumbered := false },
      driveinfo_keys := Option.none, copy_file_exc := Option.none,
      modify_epub_exc := Option.none, super_result := true,
      commit_exc := Option.none }
    pathBookEpub 1 { is_drm_encumbered := false } []
    (by decide) rfl rfl rfl rfl).1

/-- Claim C6: for a DRM-encumbered `".epub"` book — the passed container
reports `is_drm_encumbered`, or no container was passed and construction
raised `DRMError` — the book's uuid is in the skip-renaming set
afterward, the external transformer is never invoked; with
uploadEncumbered=false `_modify_epub` returns False without calling the
parent passthrough, and with uploadEncumbered=true it hands the book to
the parent passthrough unmodified. -/
theorem C6_encumbered_gate (prefs : Prefs) (env : Env) (infile : List Char)
    (uuid : Nat) (container : Option Container) (skip : List Nat)
    (hext : endswith infile EPUB_EXT = true)
    (henc : (∃ c, container = some c ∧ c.is_drm_encumbered = true)
      ∨ (container = Option.none
          ∧ ∃ e, env.construct = Except.error e ∧ e.kind = ExcKind.drmError)) :
    uuid ∈ (_modify_epub prefs env infile uuid container skip).skip_renaming_files
      ∧ (_modify_epub prefs env infile uuid container skip).modify_epub_called
        = false
      ∧ (prefs.upload_encumbered = false →
          (_modify_epub prefs env infile uuid container skip).result
              = Except.ok false
            ∧ (_modify_epub prefs env infile uuid container skip).super_called
              = false)
      ∧ (prefs.upload_encumbered = true →
          (_modify_epub prefs env infile uuid container skip).result
              = Except.ok env.super_result
            ∧ (_modify_epub prefs env infile uuid container skip).super_called
              = true) := by
  rcases henc with ⟨c, hc, hdrm⟩ | ⟨hc, e, he, hkind⟩
  · subst hc
    cases hup : prefs.upload_encumbered <;>
      simp [_modify_epub, hext, hdrm, hup, mem_setAdd]
  · subst hc
    cases hup : prefs.upload_encumbered <;>
      simp [_modify_epub, hext, he, hkind, hup, mem_setAdd]

/-- Concrete preferences with uploadEncumbered=false. -/
def prefs6 : Prefs :=
  { extra_features := true, upload_encumbered := false,
    skip_failed := false, file_copy_dir := [] }

/-- A concrete environment for the DRM gate scenarios. -/
def env6 : Env :=
  { construct := Except.ok { is_drm_encumbered := false },
    driveinfo_keys := Option.none, copy_file_exc := Option.none,
    modify_epub_exc := Option.none, super_result := true,
    commit_exc := Option.none }

/-- A concrete book uuid. -/
def uuid6mem : Nat := 42

/-- Witness for `C6_encumbered_gate` at a concrete encumbered container
with uploadEncumbered=false. -/
theorem C6_witness :
    uuid6mem ∈ (_modify_epub prefs6 env6 pathBookEpub uuid6mem
        (some { is_drm_encumbered := true }) []).skip_renaming_files
      ∧ (_modify_epub prefs6 env6 pathBookEpub uuid6mem
          (some { is_drm_encumbered := true }) []).result = Except.ok false :=
  ⟨(C6_encumbered_gate prefs6 env6 pathBookEpub uuid6mem
      (some { is_drm_encumbered := true }) [] (by decide)
      (Or.inl ⟨{ is_drm_encumbered := true }, rfl, rfl⟩)).1,
   ((C6_encumbered_gate prefs6 env6 pathBookEpub uuid6mem
      (some { is_drm_encumbered := true }) [] (by decide)
      (Or.inl ⟨{ is_drm_encumbered := true }, rfl, rfl⟩)).2.2.1 rfl).1⟩

/-- Preferences with skipFailed=true: the driver logs that failed
conversions will be skipped (`device/driver.py`, lines 202-205). -/
def prefs_skip : Prefs :=
  { extra_features := true, upload_encumbered := false,
    skip_failed := true, file_copy_dir := [] }

/-- An environment in which the external transformer raises a standard
Python 3 exception (one without a `message` attribute). -/
def env_transform_fail : Env :=
  { construct := Except.ok { is_drm_encumbered := false },
    driveinfo_keys := Option.none, copy_file_exc := Option.none,
    modify_epub_exc := some { kind := ExcKind.otherError, hasMessage := false },
    super_result := true, commit_exc := Option.none }

/-- Claim C7, failing input (code bug): with skipFailed=true and the
external transformer raising a standard Python 3 exception, the book is
NOT absorbed into passthrough — the handler's log call formats
`e.message` (`device/driver.py`, line 289), which raises
`AttributeError` before the skipFailed branch is reached, so an
exception propagates, the book id is never added to the skip-renaming
set, and the parent passthrough is never invoked. The code's own log
message promises that failed conversions will be skipped. -/
theorem C7_skip_failed_not_honored :
    (_modify_epub prefs_skip env_transform_fail pathBookEpub 7 Option.none []).result
        = Except.error { kind := ExcKind.attrError, hasMessage := false }
      ∧ 7 ∉ (_modify_epub prefs_skip env_transform_fail pathBookEpub 7
          Option.none []).skip_renaming_files
      ∧ (_modify_epub prefs_skip env_transform_fail pathBookEpub 7
          Option.none []).super_called = false := by
  refine ⟨rfl, by decide, rfl⟩

/-- The key set of a driver-info record that lacks `device_store_uuid`
but carries the other three transient keys and one unrelated key. -/
def keys_missing_dsu : List (List Char) :=
  [key_path_pfx, key_last_library_uuid, key_location_code, "foo".toList]

/-- An environment in which the `driveinfo.calibre` file exists but its
record lacks the `device_store_uuid` key. -/
def env_missing_key : Env :=
  { construct := Except.ok { is_drm_encumbered := false },
    driveinfo_keys := some keys_missing_dsu, copy_file_exc := Option.none,
    modify_epub_exc := Option.none, super_result := true,
    commit_exc := Option.none }

/-- Claim C10, failing input (code bug): when the existing driver-info
record lacks `device_store_uuid`, the unconditional `del o[prop]` does
raise `KeyError` (first conjunct) — but under Python 3 that KeyError is
NOT handled as the claim describes: the handler's log call formats
`e.message`, and `KeyError` has no `message` attribute, so
`AttributeError` propagates even with skipFailed=true; the book id is
never added to the skip-renaming set and no passthrough happens. -/
theorem C10_keyerror_not_absorbed :
    delProps keys_missing_dsu
        = Except.error { kind := ExcKind.keyError, hasMessage := false }
      ∧ (_modify_epub prefs_skip env_missing_key pathBookEpub 7
          Option.none []).result
        = Except.error { kind := ExcKind.attrError, hasMessage := false }
      ∧ 7 ∉ (_modify_epub prefs_skip env_missing_key pathBookEpub 7
          Option.none []).skip_renaming_files
      ∧ (_modify_epub prefs_skip env_missing_key pathBookEpub 7
          Option.none []).super_called = false := by
  refine ⟨rfl, rfl, by decide, rfl⟩

/-! ## Claims C5 and C8: ImageId reconciliation -/

theorem mem_inner_foldl_of_mem_acc {α β : Type} [DecidableEq α] (f : α → β)
    (all_nulls : List α) (bl : List (KoboBook α)) (acc : List (β × α))
    (x : β × α) (hx : x ∈ acc) :
    x ∈ bl.foldl
      (fun nulls b =>
        if b.application_id ≠ Option.none ∧ b.contentID ∈ all_nulls then
          nulls ++ [(f b.contentID, b.contentID)]
        else
          nulls) acc := by
  induction bl generalizing acc with
  | nil => exact hx
  | cons hd tl ih =>
    simp only [List.foldl_cons]
    apply ih
    split
    · exact List.mem_append_left _ hx
    · exact hx

theorem mem_inner_foldl_of_mem_book {α β : Type} [DecidableEq α] (f : α → β)
    (all_nulls : List α) (bl : List (KoboBook α)) (b : KoboBook α)
    (hb : b ∈ bl) (happ : b.application_id ≠ Option.none)
    (hnull : b.contentID ∈ all_nulls) (acc : List (β × α)) :
    (f b.contentID, b.contentID) ∈ bl.foldl
      (fun nulls b =>
        if b.application_id ≠ Option.none ∧ b.contentID ∈ all_nulls then
          nulls ++ [(f b.contentID, b.contentID)]
        else
          nulls) acc := by
  induction bl generalizing acc with
  | nil => cases hb
  | cons hd tl ih =>
    rcases List.mem_cons.mp hb with h | h
    · subst h
      simp only [List.foldl_cons]
      apply mem_inner_foldl_of_mem_acc
      rw [if_pos ⟨happ, hnull⟩]
      exact List.mem_append_right _ (List.mem_singleton_self _)
    · simp only [List.foldl_cons]
      exact ih h _

theorem mem_outer_foldl_of_mem_acc {α β : Type} [DecidableEq α] (f : α → β)
    (all_nulls : List α) (booklists : List (List (KoboBook α)))
    (acc : List (β × α)) (x : β × α) (hx : x ∈ acc) :
    x ∈ booklists.foldl
      (fun nulls booklist =>
        booklist.foldl
          (fun nulls b =>
            if b.application_id ≠ Option.none ∧ b.contentID ∈ all_nulls then
              nulls ++ [(f b.contentID, b.contentID)]
            else
              nulls) nulls) acc := by
  induction booklists generalizing acc with
  | nil => exact hx
  | cons hd tl ih =>
    simp only [List.foldl_cons]
    exact ih _ (mem_inner_foldl_of_mem_acc f all_nulls hd acc x hx)

theorem mem_outer_foldl_of_mem {α β : Type} [DecidableEq α] (f : α → β)
    (all_nulls : List α) (booklists : List (List (KoboBook α)))
    (bl : List (KoboBook α)) (b : KoboBook α)
    (hbl : bl ∈ booklists) (hb : b ∈ bl)
    (happ : b.application_id ≠ Option.none)
    (hnull : b.contentID ∈ all_nulls) (acc : List (β × α)) :
    (f b.contentID, b.contentID) ∈ booklists.foldl
      (fun nulls booklist =>
        booklist.foldl
          (fun nulls b =>
            if b.application_id ≠ Option.none ∧ b.contentID ∈ all_nulls then
              nulls ++ [(f b.contentID, b.contentID)]
            else
              nulls) nulls) acc := by
  induction booklists generalizing acc with
  | nil => cases hbl
  | cons hd tl ih =>
    rcases List.mem_cons.mp hbl with h | h
    · subst h
      simp only [List.foldl_cons]
      exact mem_outer_foldl_of_mem_acc f all_nulls tl _ _
        (mem_inner_foldl_of_mem_book f all_nulls bl b hb happ hnull acc)
    · simp only [List.foldl_cons]
      exact ih h _

/-- A book whose `application_id` is `None` but whose contentID is in
the needing-an-ImageId mapping. -/
def bookC5 : KoboBook Nat := { application_id := Option.none, contentID := 5 }

/-- A book with an `application_id` whose contentID is in the mapping. -/
def bookC5ok : KoboBook Nat := { application_id := some 3, contentID := 5 }

/-- Claim C5, counterexample: a book whose device content id (5) is
present in the mapping of rows lacking an image id, but whose
`application_id` is `None`, is NOT queued — the loop requires
`b.application_id is not None` as well (`device/driver.py`, line 453),
a condition the claim omits. -/
theorem C5_counterexample :
    bookC5.contentID ∈ [5]
      ∧ sync_collect_nulls (fun c => c + 1) [5] [[bookC5]] = [] := by
  decide

/-- Claim C5 (amended): for every book in every supplied booklist whose
device content id is present in the mapping of rows lacking an image id
AND whose `application_id` is not `None`, the pair
`(imageid_from_contentid(contentID), contentID)` is queued. -/
theorem C5_pair_queued {α β : Type} [DecidableEq α] (f : α → β)
    (all_nulls : List α) (booklists : List (List (KoboBook α)))
    (bl : List (KoboBook α)) (b : KoboBook α)
    (hbl : bl ∈ booklists) (hb : b ∈ bl)
    (happ : b.application_id ≠ Option.none)
    (hnull : b.contentID ∈ all_nulls) :
    (f b.contentID, b.contentID) ∈ sync_collect_nulls f all_nulls booklists := by
  unfold sync_collect_nulls
  exact mem_outer_foldl_of_mem f all_nulls booklists bl b hbl hb happ hnull []

/-- Witness for `C5_pair_queued` at a concrete one-book booklist. -/
theorem C5_witness :
    ((fun c => c + 1) bookC5ok.contentID, bookC5ok.contentID)
      ∈ sync_collect_nulls (fun c => c + 1) [5] [[bookC5ok]] :=
  C5_pair_queued (fun c => c + 1) [5] [[bookC5ok]] [bookC5ok] bookC5ok
    (List.mem_singleton_self _) (List.mem_singleton_self _)
    (by decide) (by decide)

theorem sync_update_batches_nil {α : Type} :
    sync_update_batches ([] : List α) = [] := by
  rw [sync_update_batches]
  simp

theorem sync_update_batches_of_ne_nil {α : Type} (nulls : List α)
    (h : nulls ≠ []) :
    sync_update_batches nulls
      = nulls.take 100 :: sync_update_batches (nulls.drop 100) := by
  rw [sync_update_batches]
  rw [dif_neg (by simp [List.take_eq_nil_iff, h])]

/-- Claim C8: given a queue of 250 (imageId, contentId) pairs, the
batched-update loop issues exactly 3 batches, of sizes 100, 100 and 50,
removing each batch from the queue as it is applied (the issued batches
concatenate back to the whole queue, which therefore ends empty). -/
theorem C8_batches_of_250 {α : Type} (nulls : List α)
    (h : nulls.length = 250) :
    (sync_update_batches nulls).map List.length = [100, 100, 50]
      ∧ (sync_update_batches nulls).flatten = nulls := by
  have h0 : nulls ≠ [] := by
    intro hn
    rw [hn] at h
    simp at h
  have l1 : (nulls.drop 100).length = 150 := by simp [h]
  have h1 : nulls.drop 100 ≠ [] := by
    intro hn
    rw [hn] at l1
    simp at l1
  have l2 : ((nulls.drop 100).drop 100).length = 50 := by simp [h]
  have h2 : (nulls.drop 100).drop 100 ≠ [] := by
    intro hn
    rw [hn] at l2
    simp at l2
  have h3 : (((nulls.drop 100).drop 100).drop 100) = [] :=
    List.drop_eq_nil_of_le (by omega)
  have t3 : ((nulls.drop 100).drop 100).take 100 = (nulls.drop 100).drop 100 :=
    List.take_of_length_le (by omega)
  rw [sync_update_batches_of_ne_nil _ h0, sync_update_batches_of_ne_nil _ h1,
    sync_update_batches_of_ne_nil _ h2, h3, sync_update_batches_nil]
  constructor
  · simp [List.length_take, h, l1, l2]
  · simp only [List.flatten_cons, List.flatten_nil, List.append_nil, t3]
    rw [List.take_append_drop, List.take_append_drop]

/-- Witness for `C8_batches_of_250` at a concrete queue of 250 pairs. -/
theorem C8_witness :
    (sync_update_batches (List.replicate 250 ((0 : Nat), (0 : Nat)))).map
        List.length = [100, 100, 50]
      ∧ (sync_update_batches (List.replicate 250 ((0 : Nat), (0 : Nat)))).flatten
        = List.replicate 250 ((0 : Nat), (0 : Nat)) :=
  C8_batches_of_250 _ (by rw [List.length_replicate])
